import Mathlib

/-
Verification development for the CSV data-import script (data_import.py).

The script reads a CSV of retail transactions, normalizes each row
(clean_value, parse_date, numeric coercions with fallback defaults),
accumulates records in a batch, and flushes the batch to a database
every BATCH_SIZE rows, with a final flush of any partial batch.

Shallow embedding conventions:
- Python floats on finite decimal literals are modelled exactly by ℚ
  (`parseFloat`); the full float domain, with the non-finite literals
  nan/inf/infinity, is modelled by `PyFloat`/`pyFloatParse`, used where
  the non-finite values are observable (the price derivation, whose
  input bypasses `clean_value`).  On the quantity and customer-id paths
  the exact-rational convention is behaviourally exact, since Python's
  `int()` raises on non-finite values and lands in the same fallback.
- `datetime` values are modelled by `PyDateTime` (year/month/day
  hour/minute/second); `datetime.strptime` for the three formats the
  script uses is modelled by `strptime_Ymd_HMS`, `strptime_mdY_HM`,
  `strptime_dmY_HM`, folding the field regexes of CPython's _strptime
  together with the range/calendar validation done by the `datetime`
  constructor (both failure modes raise ValueError, which the script
  catches identically).
- Python `str.strip()` and `str.lower()` are modelled by `pyStrip` and
  `pyLower`, working on the character list of the string.
- A raw CSV row is a `RawRow` of `Option String` fields: the value that
  `row.get(column, default)` yields, with `none` standing for Python
  `None` (a short row padded by DictReader) and `some ""` standing for
  an absent column (the string default; for Quantity/Price the integer
  default 0 behaves identically to "" under the `x or 0` idiom).
- The database is modelled by the list of committed batches; a flush
  attempt (one `cursor.executemany` call) either succeeds or raises,
  driven by an oracle `flushOk : ℕ → Bool` indexed by the attempt
  number.  A failed attempt commits nothing.
- `datetime.now()` is a parameter `now : PyDateTime` of the run.
-/

/-- Model of a Python `datetime` value as produced by `strptime`. -/
structure PyDateTime where
  year : ℕ
  month : ℕ
  day : ℕ
  hour : ℕ
  minute : ℕ
  second : ℕ
deriving DecidableEq

/-- Numeric value of a list of decimal digit characters. -/
def digitsToNat (cs : List Char) : ℕ :=
  cs.foldl (fun a c => 10 * a + (c.toNat - 48)) 0

/-- Remove whitespace from both ends: model of Python `str.strip()`. -/
def trimChars (cs : List Char) : List Char :=
  ((cs.dropWhile Char.isWhitespace).reverse.dropWhile Char.isWhitespace).reverse

/-- Model of Python `str.strip()`. -/
def pyStrip (s : String) : String :=
  ⟨trimChars s.data⟩

/-- Model of Python `str.lower()` (ASCII case folding, which is all the
script's comparisons need). -/
def pyLower (s : String) : String :=
  ⟨s.data.map Char.toLower⟩

/-- Split a character list at every character satisfying `p`
(the separators are dropped; empty chunks are kept). -/
def splitOnPred (p : Char → Bool) : List Char → List (List Char)
  | [] => [[]]
  | c :: cs =>
    if p c then [] :: splitOnPred p cs
    else
      match splitOnPred p cs with
      | [] => [[c]]
      | g :: gs => (c :: g) :: gs

/-- Split at the first character satisfying `p`: returns the prefix and,
if a separator was found, the remainder after it. -/
def splitOnFirstChar (p : Char → Bool) : List Char → List Char × Option (List Char)
  | [] => ([], none)
  | c :: cs =>
    if p c then ([], some cs)
    else
      match splitOnFirstChar p cs with
      | (pre, rest) => (c :: pre, rest)

/-- Whitespace-separated words of a character list (models the `\s+`
that a blank in a `strptime` format stands for). -/
def wordSplit (cs : List Char) : List (List Char) :=
  (splitOnPred Char.isWhitespace cs).filter (fun g => g ≠ [])

/-- A run of decimal digits with Python's underscore grouping
(`digit (underscore? digit)*`); returns the digits with the
underscores removed.  Rejects leading/trailing/doubled underscores. -/
def digitGroupAux : List Char → Option (List Char)
  | [] => some []
  | '_' :: c :: cs =>
    if c.isDigit then (digitGroupAux cs).map (fun ds => c :: ds) else none
  | c :: cs =>
    if c.isDigit then (digitGroupAux cs).map (fun ds => c :: ds) else none

/-- A nonempty digit group (see `digitGroupAux`); must start with a digit. -/
def parseDigitGroup (cs : List Char) : Option (List Char) :=
  match cs with
  | [] => none
  | c :: _ => if c.isDigit then digitGroupAux cs else none

/-- Model of Python `float(s)` restricted to finite decimal literals:
optional surrounding whitespace, optional sign, a mantissa made of an
integer part and/or a fractional part separated by `.`, and an optional
exponent `e`/`E` with optional sign.  Underscore digit grouping is
accepted as in Python.  The exact value is assembled as a single
rational `± digits · 10 ^ (exponent - fraction length)`.  The special
literals inf/infinity/nan have no exact rational value and are out of
this function's domain; `pyFloatParse` below extends it to the full
float domain where the distinction is observable. -/
def parseFloat (s : String) : Option ℚ :=
  let cs := trimChars s.data
  let signSplit : Bool × List Char :=
    match cs with
    | '-' :: rest => (true, rest)
    | '+' :: rest => (false, rest)
    | _ => (false, cs)
  let mantExp := splitOnFirstChar (fun c => c == 'e' || c == 'E') signSplit.2
  let intFrac := splitOnFirstChar (fun c => c == '.') mantExp.1
  let mantDigits : Option (List Char × ℕ) :=
    match intFrac.2 with
    | none => (parseDigitGroup intFrac.1).map (fun ds => (ds, 0))
    | some fp =>
      match intFrac.1, fp with
      | [], [] => none
      | [], _ => (parseDigitGroup fp).map (fun ds => (ds, ds.length))
      | _, [] => (parseDigitGroup intFrac.1).map (fun ds => (ds, 0))
      | _, _ => do
        let ids ← parseDigitGroup intFrac.1
        let fds ← parseDigitGroup fp
        pure (ids ++ fds, fds.length)
  let expVal : Option ℤ :=
    match mantExp.2 with
    | none => some 0
    | some ec =>
      let esignSplit : Bool × List Char :=
        match ec with
        | '-' :: rest => (true, rest)
        | '+' :: rest => (false, rest)
        | _ => (false, ec)
      (parseDigitGroup esignSplit.2).map
        (fun eds =>
          if esignSplit.1 then -(digitsToNat eds : ℤ) else (digitsToNat eds : ℤ))
  match mantDigits, expVal with
  | some (ds, fracLen), some e =>
    let t : ℤ := e - (fracLen : ℤ)
    let num : ℤ := (digitsToNat ds * Nat.pow 10 t.toNat : ℕ)
    let den : ℕ := Nat.pow 10 (-t).toNat
    some (mkRat (if signSplit.1 then -num else num) den)
  | _, _ => none

/-- Model of Python `int(x)` on a float value: truncation toward zero. -/
def truncQ (q : ℚ) : ℤ :=
  q.num.tdiv (q.den : ℤ)

/-- Leap-year rule used by Python's `datetime` (proleptic Gregorian). -/
def pyIsLeapYear (y : ℕ) : Bool :=
  (y % 4 == 0 && y % 100 != 0) || y % 400 == 0

/-- Number of days in a month, as validated by the `datetime` constructor. -/
def pyDaysInMonth (y m : ℕ) : ℕ :=
  if m == 2 then (if pyIsLeapYear y then 29 else 28)
  else if m == 4 || m == 6 || m == 9 || m == 11 then 30
  else 31

/-- Model of the `%Y` field: exactly four digits (CPython `_strptime`
uses the regex `\d\d\d\d`), and the `datetime` constructor requires
year ≥ 1 (MINYEAR). -/
def parseYear4 (cs : List Char) : Option ℕ :=
  if cs.length == 4 && cs.all Char.isDigit && decide (1 ≤ digitsToNat cs) then
    some (digitsToNat cs)
  else none

/-- Model of a one-or-two-digit numeric field constrained to `[lo, hi]`.
This is the combined effect of the `_strptime` field regexes for
`%m` `%d` `%H` `%M` `%S` (which accept one or two digits) and the range
validation done by the `datetime` constructor: both reject by raising
ValueError, which `parse_date` catches identically.  In particular the
regex for `%S` also accepts the leap seconds 60 and 61, but the
`datetime` constructor then rejects them, so folding the check into a
single `[0, 59]` bound is behaviourally equivalent. -/
def parseNum2 (lo hi : ℕ) (cs : List Char) : Option ℕ :=
  if (cs.length == 1 || cs.length == 2) && cs.all Char.isDigit then
    let n := digitsToNat cs
    if lo ≤ n && n ≤ hi then some n else none
  else none

/-- Model of `datetime.strptime(s, "%Y-%m-%d %H:%M:%S")`: returns the
parsed value, or `none` where Python raises ValueError (regex mismatch,
unconverted trailing data, or calendar-invalid date). -/
def strptime_Ymd_HMS (s : String) : Option PyDateTime :=
  match wordSplit s.data with
  | [datePart, timePart] =>
    match splitOnPred (fun c => c == '-') datePart,
          splitOnPred (fun c => c == ':') timePart with
    | [ys, ms, ds], [hs, mis, ss] => do
      let y ← parseYear4 ys
      let m ← parseNum2 1 12 ms
      let d ← parseNum2 1 31 ds
      let h ← parseNum2 0 23 hs
      let mi ← parseNum2 0 59 mis
      let sec ← parseNum2 0 59 ss
      if d ≤ pyDaysInMonth y m then some ⟨y, m, d, h, mi, sec⟩ else none
    | _, _ => none
  | _ => none

/-- Model of `datetime.strptime(s, "%m/%d/%Y %H:%M")`; the second
defaults to 0 since the format has no `%S` directive. -/
def strptime_mdY_HM (s : String) : Option PyDateTime :=
  match wordSplit s.data with
  | [datePart, timePart] =>
    match splitOnPred (fun c => c == '/') datePart,
          splitOnPred (fun c => c == ':') timePart with
    | [ms, ds, ys], [hs, mis] => do
      let m ← parseNum2 1 12 ms
      let d ← parseNum2 1 31 ds
      let y ← parseYear4 ys
      let h ← parseNum2 0 23 hs
      let mi ← parseNum2 0 59 mis
      if d ≤ pyDaysInMonth y m then some ⟨y, m, d, h, mi, 0⟩ else none
    | _, _ => none
  | _ => none

/-- Model of `datetime.strptime(s, "%d/%m/%Y %H:%M")`; the second
defaults to 0 since the format has no `%S` directive. -/
def strptime_dmY_HM (s : String) : Option PyDateTime :=
  match wordSplit s.data with
  | [datePart, timePart] =>
    match splitOnPred (fun c => c == '/') datePart,
          splitOnPred (fun c => c == ':') timePart with
    | [ds, ms, ys], [hs, mis] => do
      let d ← parseNum2 1 31 ds
      let m ← parseNum2 1 12 ms
      let y ← parseYear4 ys
      let h ← parseNum2 0 23 hs
      let mi ← parseNum2 0 59 mis
      if d ≤ pyDaysInMonth y m then some ⟨y, m, d, h, mi, 0⟩ else none
    | _, _ => none
  | _ => none

/-- `parse_date` (data_import.py, lines 25-41): strips the input and
tries the three formats in their listed order, returning the first
success and `None` when every format fails.  A non-string input
(Python `None`) makes `date_str.strip()` raise AttributeError, which
the outer bare `except` swallows, also returning `None`. -/
def parse_date (date_str : Option String) : Option PyDateTime :=
  match date_str with
  | none => none
  | some s =>
    let t := pyStrip s
    match strptime_Ymd_HMS t with
    | some d => some d
    | none =>
      match strptime_mdY_HM t with
      | some d => some d
      | none => strptime_dmY_HM t

/-- `clean_value` (data_import.py, lines 44-51): `None` stays `None`;
otherwise the value is stringified (a no-op here, the CSV reader only
yields strings) and stripped, and an empty or case-insensitive "nan"
result becomes `None`; anything else is returned stripped. -/
def clean_value (value : Option String) : Option String :=
  match value with
  | none => none
  | some v =>
    let w := pyStrip v
    if w = "" || pyLower w = "nan" then none else some w

/-- A raw CSV row as the import loop reads it.  Each field holds what
`row.get(column, default)` yields: `none` is Python `None` (DictReader
pads short rows with `None`), `some s` is the string `s`.  An absent
column yields the default: `""` for the string fields and the integer
`0` for Quantity/Price, which behaves identically to `""` under the
`x or 0` idiom, so `some ""` also covers that case. -/
structure RawRow where
  invoice : Option String
  stockCode : Option String
  description : Option String
  quantity : Option String
  invoiceDate : Option String
  price : Option String
  customerId : Option String
  country : Option String
deriving DecidableEq

/-- One transformed record, as appended to the batch
(data_import.py, lines 118-127). -/
structure Record where
  invoice : Option String
  stock_code : Option String
  description : Option String
  quantity : ℤ
  invoice_date : PyDateTime
  price : ℚ
  customer_id : Option String
  country : Option String
deriving DecidableEq

/-- Models `float(v or 0)` on a raw field: the falsy values `None` and
`""` are replaced by the number 0 before the conversion, anything else
is parsed as a float.  This keeps the exact-rational convention of
`parseFloat`; on the quantity and customer-id paths that convention is
behaviourally exact, because Python's `int()` raises on the non-finite
values nan/inf and lands in the same fallback the convention computes.
The price path keeps non-finite parses, so it is additionally modelled
on the full float domain below (`priceOf`). -/
def floatOrZero (v : Option String) : Option ℚ :=
  match v with
  | none => some 0
  | some s => if s = "" then some 0 else parseFloat s

/-- Value of a Python float: a finite exact rational, a signed
infinity, or NaN.  The Price column is not routed through
`clean_value`, so the special literals nan/inf reach `float()` there
and must be modelled on this full domain. -/
inductive PyFloat where
  | finite (q : ℚ)
  | inf (negative : Bool)
  | nan
deriving DecidableEq

/-- Full model of Python `float(s)`: the finite decimal literals of
`parseFloat`, plus the case-insensitive special literals `nan`, `inf`
and `infinity` with an optional sign (the sign of a NaN literal does
not affect its value). -/
def pyFloatParse (s : String) : Option PyFloat :=
  match parseFloat s with
  | some q => some (.finite q)
  | none =>
    let cs := trimChars s.data
    let signSplit : Bool × List Char :=
      match cs with
      | '-' :: rest => (true, rest)
      | '+' :: rest => (false, rest)
      | _ => (false, cs)
    let body := signSplit.2.map Char.toLower
    if body = "nan".data then some .nan
    else if body = "inf".data || body = "infinity".data then
      some (.inf signSplit.1)
    else none

/-- The Python comparison `p <= 0` on a float value, with IEEE
semantics: false for NaN (every ordered comparison with NaN is
false), the sign for an infinity, the rational comparison for finite
values. -/
def pyFloatLeZero : PyFloat → Bool
  | .finite q => q ≤ 0
  | .inf negative => negative
  | .nan => false

/-- `float(v or 0)` on a raw field over the full float domain: the
falsy values `None` and `""` become the number 0, anything else is
parsed by `pyFloatParse`. -/
def pyFloatOrZero (v : Option String) : Option PyFloat :=
  match v with
  | none => some (.finite 0)
  | some s => if s = "" then some (.finite 0) else pyFloatParse s

/-- Faithful model of the price derivation (data_import.py, lines
97-103) on the full float domain: `float(row.get('Price', 0) or 0)`,
with the 0.01 fallback when the conversion raises, and the 0.01 floor
applied only when the parsed value compares `<= 0` — which is false
for NaN, so a raw Price of "nan" or "inf" passes through unfloored. -/
def priceOf (v : Option String) : PyFloat :=
  match pyFloatOrZero v with
  | some p => if pyFloatLeZero p then .finite (mkRat 1 100) else p
  | none => .finite (mkRat 1 100)

/-- The per-field body of the import loop (data_import.py, lines
82-127): derives each output field with its own fallback.  Every parse
is wrapped in its own handler in the source, so the derivation is a
total function; `now` stands for `datetime.now()`. -/
def transformRow (now : PyDateTime) (row : RawRow) : Record :=
  let invoice := clean_value row.invoice
  let stock_code := clean_value row.stockCode
  let description := clean_value row.description
  let quantity : ℤ :=
    match floatOrZero row.quantity with
    | some q => truncQ q
    | none => 1
  let invoice_date :=
    match parse_date row.invoiceDate with
    | some d => d
    | none => now
  let price : ℚ :=
    match floatOrZero row.price with
    | some p => if p ≤ 0 then mkRat 1 100 else p
    | none => mkRat 1 100
  let customer_id : Option String :=
    match clean_value row.customerId with
    | none => none
    | some c =>
      match parseFloat c with
      | some q => some (toString (truncQ q))
      | none => none
  let country := clean_value row.country
  ⟨invoice, stock_code, description, quantity, invoice_date, price,
   customer_id, country⟩

/-- The loop-local state of `import_data`: the pending batch, the
committed-rows counter, the error counter, how many error messages have
been printed, the batches committed to storage so far, and how many
`executemany` calls (flush attempts) have been made. -/
structure LoopState where
  batch : List Record
  row_count : ℕ
  error_count : ℕ
  printed_errors : ℕ
  committed : List (List Record)
  flush_attempts : ℕ
deriving DecidableEq

/-- The state at loop entry (data_import.py, lines 75-77). -/
def initState : LoopState :=
  ⟨[], 0, 0, 0, [], 0⟩

/-- One iteration of `for row in reader` (data_import.py, lines
79-141).  The whole body sits inside the per-row `try`: the record is
appended, then, when the batch has reached BATCH_SIZE, `executemany`
runs.  If that flush attempt succeeds the batch is committed and
cleared and the row counter advances; if it raises, the `except`
branch increments the error counter (printing the message while the
counter is at most 10) and the loop continues with the batch — the
appended row included — still pending. -/
def processRow (batchSize : ℕ) (flushOk : ℕ → Bool) (now : PyDateTime)
    (st : LoopState) (row : RawRow) : LoopState :=
  let r := transformRow now row
  let b := st.batch ++ [r]
  if batchSize ≤ b.length then
    if flushOk st.flush_attempts then
      { batch := [],
        row_count := st.row_count + b.length,
        error_count := st.error_count,
        printed_errors := st.printed_errors,
        committed := st.committed ++ [b],
        flush_attempts := st.flush_attempts + 1 }
    else
      { batch := b,
        row_count := st.row_count,
        error_count := st.error_count + 1,
        printed_errors :=
          if st.error_count + 1 ≤ 10 then st.printed_errors + 1
          else st.printed_errors,
        committed := st.committed,
        flush_attempts := st.flush_attempts + 1 }
  else
    { batch := b,
      row_count := st.row_count,
      error_count := st.error_count,
      printed_errors := st.printed_errors,
      committed := st.committed,
      flush_attempts := st.flush_attempts }

/-- The summary `import_data` prints on successful completion. -/
structure ImportResult where
  row_count : ℕ
  error_count : ℕ
  printed_errors : ℕ
  committed : List (List Record)
deriving DecidableEq

/-- Observable outcome of a run of `import_data`: either normal
completion with its summary, or a fatal database error — the exception
escapes the loop, the top-level handler prints the message and calls
`sys.exit(1)`; the batches committed before the failure remain
persisted and the rows of the failing batch are lost. -/
inductive ImportOutcome where
  | ok (r : ImportResult)
  | fatal (committed : List (List Record)) (error_count : ℕ)
deriving DecidableEq

/-- The code after the row loop (data_import.py, lines 143-156): a
non-empty remaining batch is flushed unconditionally, then the summary
is printed.  This final flush sits outside the per-row `try`, so a
failure here escapes to the top-level handler, which prints the
database error and exits with status 1 — the batches committed so far
stay persisted, the rows of the failing batch are lost. -/
def finishRun (flushOk : ℕ → Bool) (st : LoopState) : ImportOutcome :=
  if st.batch.isEmpty then
    .ok ⟨st.row_count, st.error_count, st.printed_errors, st.committed⟩
  else if flushOk st.flush_attempts then
    .ok ⟨st.row_count + st.batch.length, st.error_count, st.printed_errors,
         st.committed ++ [st.batch]⟩
  else
    .fatal st.committed st.error_count

/-- The batching loop of `import_data` (data_import.py, lines 79-147)
over a list of raw rows, generalized over the batch-size constant: the
per-row loop followed by the unconditional flush of a non-empty
remaining batch.  Only that final flush sits outside the per-row
`try`, so only its failure is fatal. -/
def import_loop (batchSize : ℕ) (flushOk : ℕ → Bool) (now : PyDateTime)
    (rows : List RawRow) : ImportOutcome :=
  finishRun flushOk (rows.foldl (processRow batchSize flushOk now) initState)

/-- data_import.py, line 22. -/
def BATCH_SIZE : ℕ := 1000

/-- `import_data` with the script's batch-size constant. -/
def import_data (flushOk : ℕ → Bool) (now : PyDateTime)
    (rows : List RawRow) : ImportOutcome :=
  import_loop BATCH_SIZE flushOk now rows

/-- Terminal outcome of the `__main__` driver before/at the import call
(data_import.py, lines 179-192). -/
inductive DriverOutcome where
  | exitMissingFile
  | exitCancelled
  | runImport
deriving DecidableEq

/-- The process exit status produced directly by the driver prologue:
`sys.exit(1)` when the CSV file is missing, `sys.exit(0)` on a declined
confirmation; `none` when control proceeds into `import_data` (which is
the only path that opens the storage connection). -/
def driverExitCode : DriverOutcome → Option ℕ
  | .exitMissingFile => some 1
  | .exitCancelled => some 0
  | .runImport => none

/-- The `__main__` prologue (data_import.py, lines 179-192): the
existence check runs first and exits with status 1 before any storage
connection is opened; otherwise the prompt response is lowercased and
compared with "y", and any other lowercased response cancels with
status 0. -/
def mainDriver (fileExists : Bool) (response : String) : DriverOutcome :=
  if !fileExists then .exitMissingFile
  else if pyLower response ≠ "y" then .exitCancelled
  else .runImport

/-! ### Concrete run inputs used by the behavioural theorems -/

/-- A fixed stand-in for `datetime.now()` in concrete runs. -/
def now0 : PyDateTime :=
  ⟨2021, 1, 1, 0, 0, 0⟩

/-- A minimal raw row: every column padded to `None` (a short CSV
line under DictReader). -/
def rowNone : RawRow :=
  ⟨none, none, none, none, none, none, none, none⟩

/-- The sample row of the specification's test vector. -/
def row536365 : RawRow :=
  ⟨some "536365", some "85123A", some "WHITE HANGING HEART T-LIGHT HOLDER",
   some "6", some "12/1/2010 8:26", some "2.55", some "17850.0",
   some "United Kingdom"⟩

/-- A row whose Price parses to a positive value smaller than 0.01. -/
def rowPrice005 : RawRow :=
  ⟨some "536366", none, none, some "1", none, some "0.005", none, none⟩

/-- A row whose Quantity column is present but empty. -/
def rowQtyEmpty : RawRow :=
  ⟨some "536367", none, none, some "", none, none, none, none⟩

/-! ### Helper lemmas about the batching loop -/

/-- A row processed while the batch stays below the threshold is a
plain append: no flush attempt, no counter change. -/
lemma processRow_noflush (batchSize : ℕ) (flushOk : ℕ → Bool)
    (now : PyDateTime) (st : LoopState) (row : RawRow)
    (h : st.batch.length + 1 < batchSize) :
    processRow batchSize flushOk now st row =
      { st with batch := st.batch ++ [transformRow now row] } := by
  have hlt : ¬ batchSize ≤ st.batch.length + 1 := by omega
  simp [processRow, hlt]

/-- Folding rows that never fill the batch just appends their
transformed records. -/
lemma foldl_noflush (batchSize : ℕ) (flushOk : ℕ → Bool) (now : PyDateTime) :
    ∀ (rows : List RawRow) (st : LoopState),
      st.batch.length + rows.length < batchSize →
      rows.foldl (processRow batchSize flushOk now) st =
        { st with batch := st.batch ++ rows.map (transformRow now) } := by
  intro rows
  induction rows with
  | nil => intro st h; simp
  | cons r rs ih =>
    intro st h
    have h1 : st.batch.length + 1 < batchSize := by
      simp only [List.length_cons] at h
      omega
    rw [List.foldl_cons, processRow_noflush batchSize flushOk now st r h1,
      ih _ (by simp only [List.length_append, List.length_cons,
        List.length_nil, List.length_map] at h ⊢; omega)]
    simp [List.append_assoc]

/-- With an always-succeeding storage, the loop keeps these invariants:
the committed rows followed by the pending batch are exactly the
transformed input rows in order, the row counter equals the number of
committed rows, and no error is ever counted or printed. -/
lemma foldl_allOk (batchSize : ℕ) (now : PyDateTime) :
    ∀ (rows : List RawRow) (st : LoopState),
      st.row_count = st.committed.flatten.length →
      ((rows.foldl (processRow batchSize (fun _ => true) now) st).committed.flatten
          ++ (rows.foldl (processRow batchSize (fun _ => true) now) st).batch
        = st.committed.flatten ++ st.batch ++ rows.map (transformRow now))
      ∧ ((rows.foldl (processRow batchSize (fun _ => true) now) st).row_count
          = (rows.foldl (processRow batchSize (fun _ => true) now) st).committed.flatten.length)
      ∧ ((rows.foldl (processRow batchSize (fun _ => true) now) st).error_count
          = st.error_count)
      ∧ ((rows.foldl (processRow batchSize (fun _ => true) now) st).printed_errors
          = st.printed_errors) := by
  intro rows
  induction rows with
  | nil =>
    intro st h
    exact ⟨by simp, h, rfl, rfl⟩
  | cons r rs ih =>
    intro st h
    rw [List.foldl_cons]
    by_cases hb : batchSize ≤ st.batch.length + 1
    · have hstep : processRow batchSize (fun _ => true) now st r =
          ⟨[], st.row_count + (st.batch.length + 1), st.error_count,
           st.printed_errors,
           st.committed ++ [st.batch ++ [transformRow now r]],
           st.flush_attempts + 1⟩ := by
        simp [processRow, hb]
      rw [hstep]
      obtain ⟨i1, i2, i3, i4⟩ := ih
        ⟨[], st.row_count + (st.batch.length + 1), st.error_count,
         st.printed_errors,
         st.committed ++ [st.batch ++ [transformRow now r]],
         st.flush_attempts + 1⟩
        (by simp [List.flatten_append, h])
      refine ⟨?_, i2, i3, i4⟩
      rw [i1]
      simp [List.flatten_append, List.append_assoc]
    · have hstep : processRow batchSize (fun _ => true) now st r =
          { st with batch := st.batch ++ [transformRow now r] } := by
        simp [processRow, hb]
      rw [hstep]
      obtain ⟨i1, i2, i3, i4⟩ := ih
        { st with batch := st.batch ++ [transformRow now r] } (by simpa using h)
      refine ⟨?_, i2, i3, i4⟩
      rw [i1]
      simp [List.append_assoc]

/-- A row processed while the batch is one short of the threshold, with
a storage that raises on this flush attempt: the record stays appended,
one error is counted (printed while the counter is at most 10), and the
attempt number advances — nothing is committed. -/
lemma processRow_flushfail (batchSize : ℕ) (flushOk : ℕ → Bool)
    (now : PyDateTime) (st : LoopState) (row : RawRow)
    (hfull : batchSize ≤ st.batch.length + 1)
    (hf : flushOk st.flush_attempts = false) :
    processRow batchSize flushOk now st row =
      { st with
        batch := st.batch ++ [transformRow now row],
        error_count := st.error_count + 1,
        printed_errors :=
          if st.error_count + 1 ≤ 10 then st.printed_errors + 1
          else st.printed_errors,
        flush_attempts := st.flush_attempts + 1 } := by
  simp [processRow, hfull, hf]

/-- The successful-flush counterpart of `processRow_flushfail`. -/
lemma processRow_flushok (batchSize : ℕ) (flushOk : ℕ → Bool)
    (now : PyDateTime) (st : LoopState) (row : RawRow)
    (hfull : batchSize ≤ st.batch.length + 1)
    (hf : flushOk st.flush_attempts = true) :
    processRow batchSize flushOk now st row =
      ⟨[], st.row_count + (st.batch.length + 1), st.error_count,
       st.printed_errors,
       st.committed ++ [st.batch ++ [transformRow now row]],
       st.flush_attempts + 1⟩ := by
  simp [processRow, hfull, hf]

/-- After 1000 identical rows with a storage that raises on the first
`executemany`: the first 999 rows only fill the batch; the 1000th row
triggers the in-loop flush, which fails, so the per-row handler counts
one error, prints it, and leaves all 1000 records pending. -/
lemma fold_1000_failfirst :
    (List.replicate 1000 rowNone).foldl
        (processRow BATCH_SIZE (fun n => n != 0) now0) initState =
      ⟨List.replicate 1000 (transformRow now0 rowNone), 0, 1, 1, [], 1⟩ := by
  have h999 := foldl_noflush BATCH_SIZE (fun n => n != 0) now0
    (List.replicate 999 rowNone) initState
    (by simp only [initState, List.length_nil, List.length_replicate,
      BATCH_SIZE]; omega)
  rw [show (1000 : ℕ) = 999 + 1 from rfl, List.replicate_succ' 999 rowNone,
    List.foldl_append, h999]
  have hst : ({ initState with
      batch := initState.batch
        ++ (List.replicate 999 rowNone).map (transformRow now0) } : LoopState)
      = ⟨List.replicate 999 (transformRow now0 rowNone), 0, 0, 0, [], 0⟩ := by
    simp only [initState, List.map_replicate, List.nil_append]
  rw [hst]
  rw [List.foldl_cons, List.foldl_nil,
    processRow_flushfail BATCH_SIZE (fun n => n != 0) now0
      ⟨List.replicate 999 (transformRow now0 rowNone), 0, 0, 0, [], 0⟩ rowNone
      (by simp only [List.length_replicate, BATCH_SIZE]; omega) rfl]
  have hb : List.replicate 999 (transformRow now0 rowNone)
      ++ [transformRow now0 rowNone]
      = List.replicate 1000 (transformRow now0 rowNone) := by
    rw [← List.replicate_succ' 999]
  simp only [hb]
  norm_num

/-- One more identical row after `fold_1000_failfirst`: the batch
reaches 1001, the threshold test fires again, and this time the flush
(attempt 1) succeeds — all 1001 records, including the one appended
during the failed iteration, are committed in a single batch. -/
lemma fold_1001_failfirst :
    (List.replicate 1001 rowNone).foldl
        (processRow BATCH_SIZE (fun n => n != 0) now0) initState =
      ⟨[], 1001, 1, 1, [List.replicate 1001 (transformRow now0 rowNone)], 2⟩ := by
  rw [show (1001 : ℕ) = 1000 + 1 from rfl, List.replicate_succ' 1000 rowNone,
    List.foldl_append, fold_1000_failfirst]
  rw [List.foldl_cons, List.foldl_nil,
    processRow_flushok BATCH_SIZE (fun n => n != 0) now0
      ⟨List.replicate 1000 (transformRow now0 rowNone), 0, 1, 1, [], 1⟩ rowNone
      (by simp only [List.length_replicate, BATCH_SIZE]; omega) rfl]
  have hb : List.replicate 1000 (transformRow now0 rowNone)
      ++ [transformRow now0 rowNone]
      = List.replicate 1001 (transformRow now0 rowNone) := by
    rw [← List.replicate_succ' 1000]
  simp only [hb, List.length_replicate]
  norm_num

/-- Complete characterization of a run whose storage never fails:
the run finishes normally, every input row is transformed and
committed in order, the reported total equals the input length, and no
error is counted or printed. -/
lemma import_loop_allOk (batchSize : ℕ) (now : PyDateTime)
    (rows : List RawRow) :
    ∃ r : ImportResult,
      import_loop batchSize (fun _ => true) now rows = ImportOutcome.ok r
      ∧ r.row_count = rows.length
      ∧ r.error_count = 0
      ∧ r.printed_errors = 0
      ∧ r.committed.flatten = rows.map (transformRow now) := by
  obtain ⟨h1, h2, h3, h4⟩ := foldl_allOk batchSize now rows initState
    (by simp [initState])
  rw [show import_loop batchSize (fun _ => true) now rows
      = finishRun (fun _ => true)
          (rows.foldl (processRow batchSize (fun _ => true) now) initState)
    from rfl]
  generalize hg : rows.foldl (processRow batchSize (fun _ => true) now)
      initState = st at h1 h2 h3 h4 ⊢
  simp only [initState, List.flatten_nil, List.nil_append] at h1
  unfold finishRun
  cases hE : st.batch.isEmpty
  · refine ⟨⟨st.row_count + st.batch.length, st.error_count,
      st.printed_errors, st.committed ++ [st.batch]⟩, by simp [hE], ?_,
      h3, h4, ?_⟩
    · have hrc : st.row_count + st.batch.length
          = (st.committed.flatten ++ st.batch).length := by
        simp [List.length_append, h2]
      rw [hrc, h1, List.length_map]
    · simp [List.flatten_append, h1]
  · have hbe : st.batch = [] := List.isEmpty_iff.mp hE
    have hflat : st.committed.flatten = rows.map (transformRow now) := by
      rw [← h1, hbe, List.append_nil]
    refine ⟨⟨st.row_count, st.error_count, st.printed_errors, st.committed⟩,
      by simp [hE], ?_, h3, h4, hflat⟩
    rw [h2, hflat, List.length_map]

/-! ### Claim theorems -/

/-- C1 (counterexample): the claim "for every run in which a storage
error occurs during a batch flush, the error is fatal, propagates to
the driver, exits non-zero, and performs no retry" is false at a
concrete run.  Here 1000 rows are imported against a storage whose
first `executemany` (flush attempt 0) raises: the `import_data` of the
source catches that error in the per-row handler (error count 1,
message printed), does not exit, keeps the 1000 records in the pending
batch, and the final flush re-submits and commits all of them — the
run ends `ok`, and the rows of the failed flush are persisted rather
than lost. -/
theorem c1_inloop_flush_error_nonfatal_counterexample :
    import_data (fun n => n != 0) now0 (List.replicate 1000 rowNone) =
      ImportOutcome.ok
        ⟨1000, 1, 1, [List.replicate 1000 (transformRow now0 rowNone)]⟩ := by
  rw [show import_data (fun n => n != 0) now0 (List.replicate 1000 rowNone)
      = finishRun (fun n => n != 0)
          ((List.replicate 1000 rowNone).foldl
            (processRow BATCH_SIZE (fun n => n != 0) now0) initState)
    from rfl]
  rw [fold_1000_failfirst]
  have hE : (List.replicate 1000 (transformRow now0 rowNone)).isEmpty
      = false := by
    rw [show (1000 : ℕ) = 999 + 1 from rfl, List.replicate_succ]
    rfl
  have hf : ((fun n => n != 0) (1 : ℕ)) = true := rfl
  set_option maxRecDepth 100000 in
  simp only [finishRun, hE, Bool.false_eq_true, if_false, hf, if_true,
    List.length_replicate, List.nil_append, Nat.zero_add]

/-- C1 (amended): a storage error during the final, post-loop flush of
a non-empty remaining batch is fatal: it propagates out of
`import_data` to the top-level handler, which prints the database
error and exits with non-zero status, with no retry; the batches
committed before the failure remain persisted (the `fatal` outcome
carries exactly them) and the rows of the failing batch are lost.
Only this final flush sits outside the per-row `try`; an in-loop
flush error is caught by the per-row handler instead (see the
counterexample and C2). -/
theorem c1_final_flush_error_fatal (batchSize : ℕ) (flushOk : ℕ → Bool)
    (now : PyDateTime) (rows : List RawRow)
    (hne : (rows.foldl (processRow batchSize flushOk now) initState).batch
      ≠ [])
    (hf : flushOk (rows.foldl (processRow batchSize flushOk now)
      initState).flush_attempts = false) :
    import_loop batchSize flushOk now rows =
      ImportOutcome.fatal
        (rows.foldl (processRow batchSize flushOk now) initState).committed
        (rows.foldl (processRow batchSize flushOk now)
          initState).error_count := by
  have hE : (rows.foldl (processRow batchSize flushOk now)
      initState).batch.isEmpty = false := by
    rcases h : (rows.foldl (processRow batchSize flushOk now)
      initState).batch with _ | ⟨a, l⟩
    · exact absurd h hne
    · rfl
  rw [show import_loop batchSize flushOk now rows
      = finishRun flushOk
          (rows.foldl (processRow batchSize flushOk now) initState)
    from rfl]
  unfold finishRun
  rw [hE, hf]
  rfl

/-- Witness for `c1_final_flush_error_fatal`: a 3-row run against a
storage that always raises — the loop leaves 3 pending records (no
in-loop flush is attempted at batch size 1000), the final flush
fails, and the run ends fatally with nothing persisted and no per-row
error counted. -/
theorem c1_final_flush_error_fatal_witness :
    ((List.replicate 3 rowNone).foldl
        (processRow BATCH_SIZE (fun _ => false) now0) initState).batch ≠ []
    ∧ import_loop BATCH_SIZE (fun _ => false) now0 (List.replicate 3 rowNone)
        = ImportOutcome.fatal [] 0 := by
  refine ⟨by decide, ?_⟩
  rw [c1_final_flush_error_fatal BATCH_SIZE (fun _ => false) now0
    (List.replicate 3 rowNone) (by decide) rfl]
  decide

/-- C2 (counterexample): the claim "for every input row whose
processing raises an exception, no record of that row is appended to
the batch or inserted into storage" is false at a concrete run.  With
1001 rows and a storage whose first `executemany` raises, exactly one
iteration raises (error count 1, message printed once), yet the record
appended during that failing iteration stays in the pending batch and
is committed by the next in-loop flush: the run ends `ok` with all
1001 records inserted. -/
theorem c2_failed_iteration_row_inserted_counterexample :
    import_data (fun n => n != 0) now0 (List.replicate 1001 rowNone) =
      ImportOutcome.ok
        ⟨1001, 1, 1, [List.replicate 1001 (transformRow now0 rowNone)]⟩ := by
  rw [show import_data (fun n => n != 0) now0 (List.replicate 1001 rowNone)
      = finishRun (fun n => n != 0)
          ((List.replicate 1001 rowNone).foldl
            (processRow BATCH_SIZE (fun n => n != 0) now0) initState)
    from rfl]
  rw [fold_1001_failfirst]
  rfl

/-- C2 (amended): an iteration of the import loop that raises — which,
the per-field derivation being total, can only be a failing in-loop
flush — increments the error counter by exactly one, prints the
message only while the counter is at most 10, commits nothing, and the
loop continues with the next row; however the transformed record of
the current row has already been appended to the batch and is retained
there (so it can still be inserted by a later successful flush),
contrary to the original claim's "no record of that row is appended". -/
theorem c2_row_error_handling (batchSize : ℕ) (flushOk : ℕ → Bool)
    (now : PyDateTime) (st : LoopState) (row : RawRow)
    (hfull : batchSize ≤ st.batch.length + 1)
    (hf : flushOk st.flush_attempts = false) :
    processRow batchSize flushOk now st row =
      { st with
        batch := st.batch ++ [transformRow now row],
        error_count := st.error_count + 1,
        printed_errors :=
          if st.error_count + 1 ≤ 10 then st.printed_errors + 1
          else st.printed_errors,
        flush_attempts := st.flush_attempts + 1 } :=
  processRow_flushfail batchSize flushOk now st row hfull hf

/-- Witness for `c2_row_error_handling`: one row at batch size 1
against an always-raising storage — the error is counted and printed,
the record is in the batch, nothing is committed. -/
theorem c2_row_error_handling_witness :
    (1 ≤ initState.batch.length + 1)
    ∧ processRow 1 (fun _ => false) now0 initState rowNone =
        { initState with
          batch := [transformRow now0 rowNone],
          error_count := 1,
          printed_errors := 1,
          flush_attempts := 1 } := by
  refine ⟨by decide, ?_⟩
  rw [c2_row_error_handling 1 (fun _ => false) now0 initState rowNone
    (by decide) rfl]
  decide

/-- C3 (counterexample): the claim that the output price is always
strictly positive and at least 0.01 is false twice over.  A raw Price
of "0.005" parses to the positive value 1/200, which the code keeps as
is, and 1/200 is smaller than 1/100.  And a raw Price of "nan" — which
Python's `float()` parses successfully, Price not being routed through
`clean_value` — yields NaN: `nan <= 0` is false, the 0.01 floor is
skipped, and the output is neither 0.01 nor a positive number. -/
theorem c3_price_below_one_cent_counterexample :
    ((transformRow now0 rowPrice005).price = mkRat 1 200
      ∧ ¬ mkRat 1 100 ≤ (transformRow now0 rowPrice005).price)
    ∧ (priceOf (some "nan") = PyFloat.nan
      ∧ ∀ q : ℚ, priceOf (some "nan") ≠ PyFloat.finite q) := by
  refine ⟨by decide, by decide, fun q h => ?_⟩
  have : priceOf (some "nan") = PyFloat.nan := by decide
  rw [this] at h
  exact PyFloat.noConfusion h

/-- C3 (amended): the output price is always present; it equals 0.01
exactly when the raw Price (falsy values `None` and `""` replaced by 0
first) fails to parse as a Python float, or parses to a value that
compares `<= 0` — which is false for NaN — and otherwise equals the
parsed value, which may be smaller than 0.01, +infinity, or NaN.
Strict positivity holds precisely for the finite outputs: every finite
output price is strictly positive, but the raw Prices "nan" and "inf"
pass through as NaN and +infinity. -/
theorem c3_price_characterization :
    (∀ (v : Option String) (q : ℚ), priceOf v = PyFloat.finite q → 0 < q)
    ∧ (∀ v : Option String, pyFloatOrZero v = none →
        priceOf v = PyFloat.finite (mkRat 1 100))
    ∧ (∀ (v : Option String) (p : PyFloat), pyFloatOrZero v = some p →
        pyFloatLeZero p = true → priceOf v = PyFloat.finite (mkRat 1 100))
    ∧ (∀ (v : Option String) (p : PyFloat), pyFloatOrZero v = some p →
        pyFloatLeZero p = false → priceOf v = p)
    ∧ priceOf (some "nan") = PyFloat.nan
    ∧ priceOf (some "inf") = PyFloat.inf false
    ∧ priceOf (some "-5") = PyFloat.finite (mkRat 1 100) := by
  refine ⟨?_, ?_, ?_, ?_, by decide, by decide, by decide⟩
  · intro v q h
    unfold priceOf at h
    rcases hv : pyFloatOrZero v with _ | p <;> rw [hv] at h
    · injection h with hq
      rw [← hq]
      decide
    · have h2 : (if pyFloatLeZero p = true then PyFloat.finite (mkRat 1 100)
          else p) = PyFloat.finite q := h
      cases hle : pyFloatLeZero p <;> rw [hle] at h2
      · simp only [Bool.false_eq_true, if_false] at h2
        subst h2
        have hq : ¬ q ≤ 0 := by
          simpa [pyFloatLeZero] using hle
        exact not_le.mp hq
      · rw [if_pos rfl] at h2
        injection h2 with hq
        rw [← hq]
        decide
  · intro v h
    unfold priceOf
    rw [h]
  · intro v p h hle
    unfold priceOf
    rw [h]
    show (if pyFloatLeZero p = true then PyFloat.finite (mkRat 1 100) else p)
        = PyFloat.finite (mkRat 1 100)
    rw [hle]
    rfl
  · intro v p h hle
    unfold priceOf
    rw [h]
    show (if pyFloatLeZero p = true then PyFloat.finite (mkRat 1 100) else p)
        = p
    rw [hle]
    rfl

/-- Witness for `c3_price_characterization`: applied at the raw Price
"0.005", whose parse is finite and positive — the pass-through
conjunct gives the output 1/200 and the finite-positivity conjunct
gives its strict positivity. -/
theorem c3_price_characterization_witness :
    pyFloatOrZero (some "0.005") = some (PyFloat.finite (mkRat 1 200))
    ∧ pyFloatLeZero (PyFloat.finite (mkRat 1 200)) = false
    ∧ priceOf (some "0.005") = PyFloat.finite (mkRat 1 200)
    ∧ 0 < mkRat 1 200 :=
  ⟨by decide, by decide,
   c3_price_characterization.2.2.2.1 (some "0.005")
     (PyFloat.finite (mkRat 1 200)) (by decide) (by decide),
   c3_price_characterization.1 (some "0.005") (mkRat 1 200) (by decide)⟩

/-- C4 (counterexample): the claim "on any failure of the
floating-point parse of the raw Quantity, the output quantity is 1" is
false for the empty string: `float("")` raises in Python (the model's
parse returns `none`), yet the output quantity for a row with an empty
Quantity column is 0, because `row.get("Quantity", 0) or 0` substitutes
the number 0 before the parse is ever attempted. -/
theorem c4_empty_quantity_counterexample :
    parseFloat "" = none
    ∧ (transformRow now0 rowQtyEmpty).quantity = 0
    ∧ (0 : ℤ) ≠ 1 := by
  decide

/-- C4 (amended): the output quantity is never absent and equals the
truncation toward zero of the parsed raw Quantity; an absent column, a
`None` value or an empty string yields 0 (via the `or 0` substitution,
before any parse), and any other unparseable value yields the fallback
1. -/
theorem c4_quantity_characterization (row : RawRow) (now : PyDateTime) :
    (transformRow now row).quantity =
      (match row.quantity with
       | none => 0
       | some s =>
         if s = "" then 0
         else
           match parseFloat s with
           | some q => truncQ q
           | none => 1) := by
  have h : (transformRow now row).quantity =
      (match floatOrZero row.quantity with
       | some q => truncQ q
       | none => 1) := rfl
  rw [h]
  rcases row.quantity with _ | s
  · show truncQ 0 = 0
    decide
  · by_cases hs : s = ""
    · subst hs
      show truncQ 0 = 0
      decide
    · simp only [floatOrZero, hs, if_false, if_neg, not_false_iff]

/-- C5 (confirmed): `parse_date` tries the three patterns
`YYYY-MM-DD HH:MM:SS`, `MM/DD/YYYY HH:MM`, `DD/MM/YYYY HH:MM` in
exactly that order on the stripped input and returns the first
success, absent when none match (including non-string input); in
particular the string "03/04/2021 05:06", which both slash formats
accept (the day/month reading would be April 3rd), is interpreted as
month/day — March 4th. -/
theorem c5_parse_date_first_success :
    (∀ (s : String) (d : PyDateTime),
      strptime_Ymd_HMS (pyStrip s) = some d → parse_date (some s) = some d)
    ∧ (∀ (s : String) (d : PyDateTime),
      strptime_Ymd_HMS (pyStrip s) = none →
      strptime_mdY_HM (pyStrip s) = some d → parse_date (some s) = some d)
    ∧ (∀ s : String,
      strptime_Ymd_HMS (pyStrip s) = none →
      strptime_mdY_HM (pyStrip s) = none →
      parse_date (some s) = strptime_dmY_HM (pyStrip s))
    ∧ parse_date none = none
    ∧ parse_date (some "03/04/2021 05:06") = some ⟨2021, 3, 4, 5, 6, 0⟩
    ∧ strptime_dmY_HM "03/04/2021 05:06" = some ⟨2021, 4, 3, 5, 6, 0⟩
    ∧ parse_date (some "not-a-date") = none := by
  refine ⟨?_, ?_, ?_, rfl, by decide, by decide, by decide⟩
  · intro s d h
    simp [parse_date, h]
  · intro s d h1 h2
    simp [parse_date, h1, h2]
  · intro s h1 h2
    simp [parse_date, h1, h2]

/-- Witness for `c5_parse_date_first_success`: the second conjunct
applied at the ambiguous slash-format string — the dash format fails,
the month/day format succeeds, and `parse_date` returns its result. -/
theorem c5_parse_date_first_success_witness :
    strptime_Ymd_HMS (pyStrip "03/04/2021 05:06") = none
    ∧ strptime_mdY_HM (pyStrip "03/04/2021 05:06")
        = some ⟨2021, 3, 4, 5, 6, 0⟩
    ∧ parse_date (some "03/04/2021 05:06") = some ⟨2021, 3, 4, 5, 6, 0⟩ :=
  ⟨by decide, by decide,
   c5_parse_date_first_success.2.1 "03/04/2021 05:06" ⟨2021, 3, 4, 5, 6, 0⟩
     (by decide) (by decide)⟩

/-- C6 (confirmed): with batch size 2 and 5 valid rows there are
exactly three committed batches of sizes 2, 2, 1 (the last flushed
unconditionally after the input is exhausted), and in general, when
storage never fails, every transformed row is committed in input order
and the reported total equals the number of (successfully transformed)
input rows. -/
theorem c6_batch_boundaries :
    (import_loop 2 (fun _ => true) now0 (List.replicate 5 rowNone) =
      ImportOutcome.ok
        ⟨5, 0, 0,
         [List.replicate 2 (transformRow now0 rowNone),
          List.replicate 2 (transformRow now0 rowNone),
          [transformRow now0 rowNone]]⟩)
    ∧ ∀ (batchSize : ℕ) (now : PyDateTime) (rows : List RawRow),
        ∃ r : ImportResult,
          import_loop batchSize (fun _ => true) now rows
            = ImportOutcome.ok r
          ∧ r.row_count = rows.length
          ∧ r.error_count = 0
          ∧ r.committed.flatten = rows.map (transformRow now) := by
  refine ⟨by decide, fun batchSize now rows => ?_⟩
  obtain ⟨r, h1, h2, h3, _, h5⟩ := import_loop_allOk batchSize now rows
  exact ⟨r, h1, h2, h3, h5⟩

/-- C7 (confirmed): the specification's sample row (Invoice "536365",
Quantity "6", Price "2.55", Customer ID "17850.0") transforms to
quantity 6, price 2.55 (= 255/100) and customer id "17850" — the
float-parse, truncate, stringify round-trip strips the trailing ".0";
and in general the customer id equals exactly that round-trip of the
cleaned raw value, absent when the clean yields absent or the parse
fails. -/
theorem c7_sample_row_transform :
    ((transformRow now0 row536365).quantity = 6
      ∧ (transformRow now0 row536365).price = mkRat 255 100
      ∧ (transformRow now0 row536365).customer_id = some "17850")
    ∧ ∀ (row : RawRow) (now : PyDateTime),
        (transformRow now row).customer_id =
          (match clean_value row.customerId with
           | none => none
           | some c =>
             match parseFloat c with
             | some q => some (toString (truncQ q))
             | none => none) :=
  ⟨by decide, fun row now => rfl⟩

/-- C8 (confirmed): `clean_value` is total by construction, and it
returns absent exactly when the input is null-like (`None`) or, after
trimming, empty or case-insensitively equal to "nan"; in every other
case it returns the trimmed string. -/
theorem c8_clean_value_characterization :
    clean_value none = none
    ∧ ∀ s : String,
        (clean_value (some s) = none ↔
          pyStrip s = "" ∨ pyLower (pyStrip s) = "nan")
        ∧ (clean_value (some s) = none
            ∨ clean_value (some s) = some (pyStrip s)) := by
  refine ⟨rfl, fun s => ?_⟩
  have hdef : clean_value (some s) =
      if pyStrip s = "" || pyLower (pyStrip s) = "nan" then none
      else some (pyStrip s) := rfl
  by_cases h1 : pyStrip s = ""
  · constructor
    · rw [hdef]; simp [h1]
    · left; rw [hdef]; simp [h1]
  · by_cases h2 : pyLower (pyStrip s) = "nan"
    · constructor
      · rw [hdef]; simp [h1, h2]
      · left; rw [hdef]; simp [h1, h2]
    · constructor
      · rw [hdef]; simp [h1, h2]
      · right; rw [hdef]; simp [h1, h2]

/-- C9 (counterexample): the claim "for any response other than
literal y, the driver aborts with exit status 0" is false for the
uppercase response "Y": it differs from "y", yet the driver proceeds
with the import instead of cancelling, because the code lowercases the
response before comparing. -/
theorem c9_uppercase_response_counterexample :
    ("Y" : String) ≠ "y"
    ∧ mainDriver true "Y" = DriverOutcome.runImport
    ∧ mainDriver true "Y" ≠ DriverOutcome.exitCancelled := by
  decide

/-- C9 (amended): when the input CSV file is missing the driver exits
with status 1 whatever the response, before `import_data` — the only
code path that opens the storage connection — is reached; when the
file exists, any response whose lowercased form differs from "y"
cancels the run with exit status 0 and no import. -/
theorem c9_driver_prologue :
    (∀ response : String,
      mainDriver false response = DriverOutcome.exitMissingFile
      ∧ driverExitCode (mainDriver false response) = some 1)
    ∧ ∀ response : String, pyLower response ≠ "y" →
        mainDriver true response = DriverOutcome.exitCancelled
        ∧ driverExitCode (mainDriver true response) = some 0 := by
  refine ⟨fun r => ⟨rfl, rfl⟩, fun r hr => ?_⟩
  have h : mainDriver true r = DriverOutcome.exitCancelled := by
    simp [mainDriver, hr]
  exact ⟨h, by rw [h]; rfl⟩

/-- Witness for `c9_driver_prologue`: the response "n" lowercases to
"n" ≠ "y" and cancels with status 0; with a missing file the driver
exits with status 1. -/
theorem c9_driver_prologue_witness :
    pyLower "n" ≠ "y"
    ∧ mainDriver true "n" = DriverOutcome.exitCancelled
    ∧ driverExitCode (mainDriver true "n") = some 0
    ∧ mainDriver false "n" = DriverOutcome.exitMissingFile :=
  ⟨by decide,
   (c9_driver_prologue.2 "n" (by decide)).1,
   (c9_driver_prologue.2 "n" (by decide)).2,
   (c9_driver_prologue.1 "n").1⟩

/-- C10 (confirmed): the per-field transformation is the total
function `transformRow` — every parse failure lands in a fallback, so
deriving the eight output fields cannot raise — and consequently the
per-row error branch fires only on a failing in-loop flush: a
processed row either leaves the error counter unchanged, or the batch
had reached the threshold and the flush attempt failed; with a storage
that never fails, a whole run of any input counts and prints zero
errors. -/
theorem c10_error_branch_only_flush :
    (∀ (batchSize : ℕ) (flushOk : ℕ → Bool) (now : PyDateTime)
        (st : LoopState) (row : RawRow),
      (processRow batchSize flushOk now st row).error_count = st.error_count
      ∨ ((processRow batchSize flushOk now st row).error_count
            = st.error_count + 1
          ∧ batchSize ≤ st.batch.length + 1
          ∧ flushOk st.flush_attempts = false))
    ∧ ∀ (batchSize : ℕ) (now : PyDateTime) (rows : List RawRow),
        ∃ r : ImportResult,
          import_loop batchSize (fun _ => true) now rows
            = ImportOutcome.ok r
          ∧ r.error_count = 0 ∧ r.printed_errors = 0 := by
  constructor
  · intro batchSize flushOk now st row
    by_cases hfull : batchSize ≤ st.batch.length + 1
    · cases hf : flushOk st.flush_attempts
      · right
        rw [processRow_flushfail batchSize flushOk now st row hfull hf]
        exact ⟨rfl, hfull, rfl⟩
      · left
        rw [processRow_flushok batchSize flushOk now st row hfull hf]
    · left
      rw [processRow_noflush batchSize flushOk now st row (by omega)]
  · intro batchSize now rows
    obtain ⟨r, h1, _, h3, h4, _⟩ := import_loop_allOk batchSize now rows
    exact ⟨r, h1, h3, h4⟩
